import Mathlib

set_option maxRecDepth 20000

/-!
Verification of the icon-asset generators in `src-tauri/icons/`:
`create_ico.py` (function `create_minimal_ico`) and
`create_placeholders.py` (function `create_minimal_png`).

Bytes are modelled as natural numbers below 256, byte sequences as
`List Nat`.  Python's `struct.pack` is modelled faithfully, including its
failure modes: it raises `struct.error` when the number of supplied values
does not match the number of format codes, or when a value is out of range
for its format code.  Both generators are embedded as functions returning
`Except PackError (List Nat)`: the byte sequence they would write to the
output file, or the error at which they abort.
-/

/-- Failure modes of Python's `struct.pack`: argument-count mismatch with the
    format string, or a value out of range for its format code. -/
inductive PackError where
  | countMismatch : PackError
  | outOfRange : PackError
deriving DecidableEq

/-- Format codes used by the two scripts: `B` (unsigned char, 1 byte),
    `H` (unsigned short, 2 bytes), `I` (unsigned int, 4 bytes). -/
inductive PackCode where
  | B : PackCode
  | H : PackCode
  | I : PackCode
deriving DecidableEq

/-- Packed size in bytes of one format code. -/
def PackCode.size : PackCode → Nat
  | .B => 1
  | .H => 2
  | .I => 4

/-- Exclusive upper bound on the values a format code accepts. -/
def PackCode.bound : PackCode → Nat
  | .B => 256
  | .H => 65536
  | .I => 4294967296

/-- Big-endian 4-byte encoding of a natural number (mod 2^32). -/
def beU32 (n : Nat) : List Nat :=
  [n / 16777216 % 256, n / 65536 % 256, n / 256 % 256, n % 256]

/-- Big-endian bytes of one packed field. -/
def beBytes : PackCode → Nat → List Nat
  | .B, v => [v % 256]
  | .H, v => [v / 256 % 256, v % 256]
  | .I, v => beU32 v

/-- Little-endian bytes of one packed field. -/
def leBytes : PackCode → Nat → List Nat
  | .B, v => [v % 256]
  | .H, v => [v % 256, v / 256 % 256]
  | .I, v => [v % 256, v / 256 % 256, v / 65536 % 256, v / 16777216 % 256]

/-- Model of Python `struct.pack` with a big-endian format string (`'>...'`):
    each value is range-checked against its format code, and the number of
    values must equal the number of format codes. -/
def structPackBE : List PackCode → List Nat → Except PackError (List Nat)
  | [], [] => .ok []
  | c :: cs, v :: vs =>
    if v < c.bound then
      (structPackBE cs vs).map (fun rest => beBytes c v ++ rest)
    else .error .outOfRange
  | _, _ => .error .countMismatch

/-- Model of Python `struct.pack` with a little-endian format string (`'<...'`). -/
def structPackLE : List PackCode → List Nat → Except PackError (List Nat)
  | [], [] => .ok []
  | c :: cs, v :: vs =>
    if v < c.bound then
      (structPackLE cs vs).map (fun rest => leBytes c v ++ rest)
    else .error .outOfRange
  | _, _ => .error .countMismatch

/-! ### create_ico.py -/

/-- Format of the ICO file header, `'<HHH'`. -/
def icoHeaderFormat : List PackCode := [.H, .H, .H]

/-- Values packed into the ICO file header: reserved 0, type 1, count 1. -/
def icoHeaderValues : List Nat := [0, 1, 1]

/-- Format string `'<IHHHHHIIHHHII'` of the BMP info header pack call
    (13 format codes). -/
def bmpHeaderFormat : List PackCode :=
  [.I, .H, .H, .H, .H, .H, .I, .I, .H, .H, .H, .I, .I]

/-- The 11 values passed to the BMP info header pack call:
    40, width, height*2, 1, 32, 0, len(image_data), 0, 0, 0, 0
    with width = height = 32. -/
def bmpHeaderValues (imageDataLen : Nat) : List Nat :=
  [40, 32, 64, 1, 32, 0, imageDataLen, 0, 0, 0, 0]

/-- The blank 32x32 RGBA pixel buffer `b'\x00' * (width * height * 4)`. -/
def icoImageData : List Nat := List.replicate (32 * 32 * 4) 0

/-- Embedding of `create_minimal_ico` from `create_ico.py`: the byte sequence
    it would write to `icon.ico`, or the pack error at which it aborts.
    Width and height are fixed at 32 in the source. -/
def create_minimal_ico : Except PackError (List Nat) := do
  let ico_header ← structPackLE icoHeaderFormat icoHeaderValues
  let image_data := icoImageData
  let bmp_header ← structPackLE bmpHeaderFormat (bmpHeaderValues image_data.length)
  let image_size := bmp_header.length + image_data.length
  let dir_entry ← structPackLE [.B, .B, .B, .B, .H, .H, .I] [32, 32, 0, 0, 1, 32, image_size]
  let off22 ← structPackLE [.I] [22]
  return ico_header ++ (dir_entry ++ off22) ++ bmp_header ++ image_data

/-! ### create_placeholders.py -/

/-- The fixed 8-byte PNG signature `b'\x89PNG\r\n\x1a\n'`. -/
def pngSignature : List Nat := [137, 80, 78, 71, 13, 10, 26, 10]

/-- ASCII bytes of the chunk type tag `IHDR`. -/
def typeIHDR : List Nat := [73, 72, 68, 82]

/-- ASCII bytes of the chunk type tag `IDAT`. -/
def typeIDAT : List Nat := [73, 68, 65, 84]

/-- ASCII bytes of the chunk type tag `IEND`. -/
def typeIEND : List Nat := [73, 69, 78, 68]

/-- Format `'>IIBBBBB'` of the IHDR data pack call. -/
def ihdrFormat : List PackCode := [.I, .I, .B, .B, .B, .B, .B]

/-- The fixed IDAT payload `b'\x08\x1d\x01\x01\x00\xfe\xff\x00\x00\x00\x01\x00\x01'`. -/
def idat_data : List Nat := [8, 29, 1, 1, 0, 254, 255, 0, 0, 0, 1, 0, 1]

/-- The hardcoded IHDR CRC constant `0x90773496`. -/
def ihdr_crc : Nat := 0x90773496

/-- The hardcoded IDAT CRC constant `0xe1240dc9`. -/
def idat_crc : Nat := 0xe1240dc9

/-- The hardcoded IEND CRC constant `0xae426082`. -/
def iend_crc : Nat := 0xae426082

/-- Embedding of `create_minimal_png` from `create_placeholders.py`: the byte
    sequence it writes to the named file, or the pack error at which it
    aborts (a width or height outside unsigned 32-bit range). -/
def create_minimal_png (width height : Nat) : Except PackError (List Nat) := do
  let ihdr_data ← structPackBE ihdrFormat [width, height, 8, 2, 0, 0, 0]
  let ihdr_chunk := typeIHDR ++ ihdr_data
  let ihdr_len ← structPackBE [.I] [13]
  let ihdr_crc_bytes ← structPackBE [.I] [ihdr_crc]
  let ihdr := ihdr_len ++ ihdr_chunk ++ ihdr_crc_bytes
  let idat_len ← structPackBE [.I] [idat_data.length]
  let idat_crc_bytes ← structPackBE [.I] [idat_crc]
  let idat := idat_len ++ (typeIDAT ++ idat_data) ++ idat_crc_bytes
  let iend_len ← structPackBE [.I] [0]
  let iend_crc_bytes ← structPackBE [.I] [iend_crc]
  let iend := iend_len ++ typeIEND ++ iend_crc_bytes
  return pngSignature ++ ihdr ++ idat ++ iend

/-! ### A PNG chunk-stream reader, used to state the structural claims. -/

/-- Read a big-endian 4-byte unsigned integer from the head of a byte list. -/
def readBE32 : List Nat → Option (Nat × List Nat)
  | a :: b :: c :: d :: rest => some (((a * 256 + b) * 256 + c) * 256 + d, rest)
  | _ => none

/-- One parsed PNG chunk: the raw length field, the 4-byte type tag, the data
    bytes, and the CRC field. -/
structure PngChunk where
  clen : Nat
  ctype : List Nat
  cdata : List Nat
  ccrc : Nat
deriving DecidableEq

/-- Read one PNG chunk (length, type, data, CRC) from the head of a byte
    list, returning the chunk and the remaining bytes. -/
def readChunk (bs : List Nat) : Option (PngChunk × List Nat) :=
  match readBE32 bs with
  | none => none
  | some (len, r1) =>
    if 4 + len + 4 ≤ r1.length then
      match readBE32 ((r1.drop 4).drop len) with
      | none => none
      | some (crc, r2) => some (⟨len, r1.take 4, (r1.drop 4).take len, crc⟩, r2)
    else none

/-- Read a whole byte list as a sequence of PNG chunks; `none` unless the
    list is exactly a concatenation of well-formed chunks.  The first
    argument is fuel bounding the number of chunks. -/
def readChunks : Nat → List Nat → Option (List PngChunk)
  | _, [] => some []
  | 0, _ :: _ => none
  | fuel + 1, b :: bs =>
    match readChunk (b :: bs) with
    | none => none
    | some (c, rest) =>
      match readChunks fuel rest with
      | none => none
      | some cs => some (c :: cs)

/-! ### CRC-32, per the standard PNG checksum algorithm. -/

/-- One shift-and-conditionally-xor round of reflected CRC-32 with
    polynomial `0xEDB88320`. -/
def crcRound (c : Nat) : Nat :=
  if c % 2 = 1 then (c / 2) ^^^ 3988292384 else c / 2

/-- Fold one byte into a CRC-32 accumulator: xor the byte in, then run
    eight rounds. -/
def crcByte (c b : Nat) : Nat :=
  crcRound (crcRound (crcRound (crcRound (crcRound (crcRound (crcRound (crcRound (c ^^^ b))))))))

/-- Standard CRC-32 of a byte sequence: initial value `0xFFFFFFFF`, final
    xor with `0xFFFFFFFF`. -/
def crc32 (bs : List Nat) : Nat :=
  (bs.foldl crcByte 4294967295) ^^^ 4294967295

/-! ### Closed form of the PNG generator's output. -/

/-- Data bytes of the emitted IHDR chunk: width and height big-endian,
    bit depth 8, color type 2, compression 0, filter 0, interlace 0. -/
def ihdrDataBytes (w h : Nat) : List Nat := beU32 w ++ beU32 h ++ [8, 2, 0, 0, 0]

/-- Closed form of the byte sequence `create_minimal_png` writes. -/
def pngBytes (w h : Nat) : List Nat :=
  pngSignature ++ (beU32 13 ++ (typeIHDR ++ ihdrDataBytes w h) ++ beU32 ihdr_crc)
    ++ (beU32 13 ++ (typeIDAT ++ idat_data) ++ beU32 idat_crc)
    ++ (beU32 0 ++ typeIEND ++ beU32 iend_crc)

theorem create_minimal_png_eq (w h : Nat) (hw : w < 4294967296) (hh : h < 4294967296) :
    create_minimal_png w h = Except.ok (pngBytes w h) := by
  simp [create_minimal_png, structPackBE, beBytes, ihdrFormat, PackCode.bound, hw, hh,
    Bind.bind, Except.bind, Except.map, Pure.pure, Except.pure, pngBytes, ihdrDataBytes,
    beU32, pngSignature, typeIHDR, typeIDAT, typeIEND, idat_data, ihdr_crc, idat_crc, iend_crc]

theorem readChunks_pngBytes (w h : Nat) :
    readChunks ((pngBytes w h).length) ((pngBytes w h).drop 8) =
      some [⟨13, typeIHDR, ihdrDataBytes w h, ihdr_crc⟩,
            ⟨13, typeIDAT, idat_data, idat_crc⟩,
            ⟨0, typeIEND, [], iend_crc⟩] := by
  rfl

theorem readBE32_beU32 (n : Nat) (h : n < 4294967296) (rest : List Nat) :
    readBE32 (beU32 n ++ rest) = some (n, rest) := by
  simp [beU32, readBE32]
  omega

theorem icoImageData_length : icoImageData.length = 4096 := by
  simp only [icoImageData, List.length_replicate]

theorem create_minimal_ico_eq : create_minimal_ico = Except.error PackError.countMismatch := by
  simp [create_minimal_ico, icoImageData_length, structPackLE, leBytes, icoHeaderFormat,
    icoHeaderValues, bmpHeaderFormat, bmpHeaderValues, PackCode.bound, Bind.bind,
    Except.bind, Except.map]

/-! ### Claim theorems. -/

/-- Claim C1. The spec asserts that both generators, run on their fixed
    invocations, complete normally with only file-system I/O failures
    possible.  In fact `create_minimal_ico` aborts with a `struct.error`:
    its BMP info header pack call supplies 11 values to a 13-code format
    string, so `icon.ico` is never written and no confirmation message is
    printed.  The PNG generator's invocations do complete. -/
theorem ico_generator_aborts_png_completes :
    create_minimal_ico = Except.error PackError.countMismatch ∧
    (∃ bs, create_minimal_png 32 32 = Except.ok bs) ∧
    (∃ bs, create_minimal_png 128 128 = Except.ok bs) :=
  ⟨create_minimal_ico_eq,
   ⟨pngBytes 32 32, create_minimal_png_eq 32 32 (by decide) (by decide)⟩,
   ⟨pngBytes 128 128, create_minimal_png_eq 128 128 (by decide) (by decide)⟩⟩

/-- Claim C2. For every unsigned-32-bit width and height, the CRC fields of
    the emitted IHDR, IDAT and IEND chunks are the fixed constants
    0x90773496, 0xe1240dc9 and 0xae426082, independent of width and height. -/
theorem png_crc_fields_are_constants (w h : Nat) (bs : List Nat)
    (hw : w < 4294967296) (hh : h < 4294967296)
    (hbs : create_minimal_png w h = Except.ok bs) :
    ∃ d, readChunks bs.length (bs.drop 8) =
      some [⟨13, typeIHDR, d, 0x90773496⟩,
            ⟨13, typeIDAT, idat_data, 0xe1240dc9⟩,
            ⟨0, typeIEND, [], 0xae426082⟩] := by
  rw [create_minimal_png_eq w h hw hh] at hbs
  injection hbs with h'
  subst h'
  exact ⟨ihdrDataBytes w h, readChunks_pngBytes w h⟩

/-- Witness for C2 at width = height = 32. -/
theorem png_crc_fields_are_constants_witness :
    (32 : Nat) < 4294967296 ∧
    create_minimal_png 32 32 = Except.ok (pngBytes 32 32) ∧
    ∃ d, readChunks (pngBytes 32 32).length ((pngBytes 32 32).drop 8) =
      some [⟨13, typeIHDR, d, 0x90773496⟩,
            ⟨13, typeIDAT, idat_data, 0xe1240dc9⟩,
            ⟨0, typeIEND, [], 0xae426082⟩] :=
  ⟨by decide, create_minimal_png_eq 32 32 (by decide) (by decide),
   png_crc_fields_are_constants 32 32 (pngBytes 32 32) (by decide) (by decide)
     (create_minimal_png_eq 32 32 (by decide) (by decide))⟩

/-- Counterexample to C3. In the file emitted for width = height = 32 the
    IHDR chunk's CRC field is the constant 0x90773496, while the standard
    CRC-32 over the type tag concatenated with the data bytes is
    0xfc18eda3, so the CRC field does not match the chunk contents. -/
theorem png_ihdr_crc_field_wrong_at_32 :
    create_minimal_png 32 32 = Except.ok (pngBytes 32 32) ∧
    readChunks (pngBytes 32 32).length ((pngBytes 32 32).drop 8) =
      some [⟨13, typeIHDR, ihdrDataBytes 32 32, 0x90773496⟩,
            ⟨13, typeIDAT, idat_data, 0xe1240dc9⟩,
            ⟨0, typeIEND, [], 0xae426082⟩] ∧
    crc32 (typeIHDR ++ ihdrDataBytes 32 32) = 0xfc18eda3 ∧
    (0x90773496 : Nat) ≠ 0xfc18eda3 :=
  ⟨create_minimal_png_eq 32 32 (by decide) (by decide), readChunks_pngBytes 32 32,
   by decide, by decide⟩

/-- Amended C3. Every emitted chunk's length field equals its data byte
    count, and the IEND chunk's CRC field equals the standard CRC-32 of its
    type tag and data; but the IHDR and IDAT CRC fields are the hardcoded
    constants, which differ from the standard CRC-32 of type tag plus data
    for every emitted size (32x32 and 128x128). -/
theorem png_length_fields_match_only_iend_crc_standard :
    (∀ w h bs, w < 4294967296 → h < 4294967296 →
      create_minimal_png w h = Except.ok bs →
      ∃ cs, readChunks bs.length (bs.drop 8) = some cs ∧
        (∀ c ∈ cs, c.clen = c.cdata.length) ∧
        (∀ c ∈ cs, c.ctype = typeIEND → c.ccrc = crc32 (c.ctype ++ c.cdata))) ∧
    crc32 (typeIHDR ++ ihdrDataBytes 32 32) ≠ ihdr_crc ∧
    crc32 (typeIHDR ++ ihdrDataBytes 128 128) ≠ ihdr_crc ∧
    crc32 (typeIDAT ++ idat_data) ≠ idat_crc := by
  refine ⟨?_, by decide, by decide, by decide⟩
  intro w h bs hw hh hbs
  rw [create_minimal_png_eq w h hw hh] at hbs
  injection hbs with h'
  subst h'
  refine ⟨_, readChunks_pngBytes w h, ?_, ?_⟩
  · intro c hc
    simp only [List.mem_cons, List.not_mem_nil, or_false] at hc
    rcases hc with rfl | rfl | rfl
    · rfl
    · rfl
    · rfl
  · intro c hc ht
    simp only [List.mem_cons, List.not_mem_nil, or_false] at hc
    rcases hc with rfl | rfl | rfl
    · simp [typeIHDR, typeIEND] at ht
    · simp [typeIDAT, typeIEND] at ht
    · decide

/-- Witness for the amended C3 at width = height = 32. -/
theorem png_length_fields_match_witness :
    (32 : Nat) < 4294967296 ∧
    create_minimal_png 32 32 = Except.ok (pngBytes 32 32) ∧
    ∃ cs, readChunks (pngBytes 32 32).length ((pngBytes 32 32).drop 8) = some cs ∧
      (∀ c ∈ cs, c.clen = c.cdata.length) ∧
      (∀ c ∈ cs, c.ctype = typeIEND → c.ccrc = crc32 (c.ctype ++ c.cdata)) :=
  ⟨by decide, create_minimal_png_eq 32 32 (by decide) (by decide),
   png_length_fields_match_only_iend_crc_standard.1 32 32 (pngBytes 32 32)
     (by decide) (by decide) (create_minimal_png_eq 32 32 (by decide) (by decide))⟩

/-- Claim C4. The spec describes the emitted `icon.ico` as a 6-byte file
    header, 16-byte directory entry, 40-byte bitmap-info header and 4096-byte
    pixel buffer, 4158 bytes in all.  In fact the bitmap-info header pack
    call pairs a 13-code format string (which would pack 36 bytes, not 40)
    with only 11 values, so it raises `struct.error` and the generator emits
    no byte sequence at all. -/
theorem bmp_header_pack_is_malformed :
    structPackLE bmpHeaderFormat (bmpHeaderValues icoImageData.length) =
      Except.error PackError.countMismatch ∧
    bmpHeaderFormat.length = 13 ∧
    (bmpHeaderValues icoImageData.length).length = 11 ∧
    (bmpHeaderFormat.map PackCode.size).sum = 36 ∧
    icoImageData.length = 4096 ∧
    create_minimal_ico = Except.error PackError.countMismatch := by
  refine ⟨?_, by decide, by decide, by decide, icoImageData_length, create_minimal_ico_eq⟩
  simp [icoImageData_length, structPackLE, leBytes, bmpHeaderFormat, bmpHeaderValues,
    PackCode.bound, Except.map]

/-- Claim C5. The ICO file header as packed is `00 00 01 00 01 00` (reserved
    0, type 1, count 1) and the packed offset field is 22 little-endian, as
    the claim describes; but the generator aborts before opening the file,
    so no `icon.ico` byte sequence is ever emitted for these fields to
    appear in. -/
theorem ico_header_fields_packed_but_never_written :
    structPackLE icoHeaderFormat icoHeaderValues = Except.ok [0, 0, 1, 0, 1, 0] ∧
    structPackLE [PackCode.I] [22] = Except.ok [22, 0, 0, 0] ∧
    ∃ e, create_minimal_ico = Except.error e :=
  ⟨rfl, rfl, PackError.countMismatch, create_minimal_ico_eq⟩

/-- Claim C6. For every unsigned-32-bit width and height, the IHDR chunk of
    the emitted file has the 13-byte payload: width big-endian, height
    big-endian, bit depth 8, color type 2, compression 0, filter 0,
    interlace 0; and the first two 4-byte big-endian fields decode back to
    the width and the height. -/
theorem ihdr_payload_fields (w h : Nat) (bs : List Nat)
    (hw : w < 4294967296) (hh : h < 4294967296)
    (hbs : create_minimal_png w h = Except.ok bs) :
    ∃ rest, readChunk (bs.drop 8) =
        some (⟨13, typeIHDR, beU32 w ++ beU32 h ++ [8, 2, 0, 0, 0], ihdr_crc⟩, rest) ∧
      (beU32 w ++ beU32 h ++ [8, 2, 0, 0, 0]).length = 13 ∧
      readBE32 (beU32 w ++ beU32 h ++ [8, 2, 0, 0, 0]) =
        some (w, beU32 h ++ [8, 2, 0, 0, 0]) ∧
      readBE32 (beU32 h ++ [8, 2, 0, 0, 0]) = some (h, [8, 2, 0, 0, 0]) := by
  rw [create_minimal_png_eq w h hw hh] at hbs
  injection hbs with h'
  subst h'
  exact ⟨_, rfl, rfl, readBE32_beU32 w hw _, readBE32_beU32 h hh _⟩

/-- Witness for C6 at width = height = 32. -/
theorem ihdr_payload_fields_witness :
    (32 : Nat) < 4294967296 ∧
    create_minimal_png 32 32 = Except.ok (pngBytes 32 32) ∧
    ∃ rest, readChunk ((pngBytes 32 32).drop 8) =
        some (⟨13, typeIHDR, beU32 32 ++ beU32 32 ++ [8, 2, 0, 0, 0], ihdr_crc⟩, rest) ∧
      (beU32 32 ++ beU32 32 ++ [8, 2, 0, 0, 0]).length = 13 ∧
      readBE32 (beU32 32 ++ beU32 32 ++ [8, 2, 0, 0, 0]) =
        some (32, beU32 32 ++ [8, 2, 0, 0, 0]) ∧
      readBE32 (beU32 32 ++ [8, 2, 0, 0, 0]) = some (32, [8, 2, 0, 0, 0]) :=
  ⟨by decide, create_minimal_png_eq 32 32 (by decide) (by decide),
   ihdr_payload_fields 32 32 (pngBytes 32 32) (by decide) (by decide)
     (create_minimal_png_eq 32 32 (by decide) (by decide))⟩

/-- Claim C7. Every emitted PNG byte sequence starts with the fixed 8-byte
    signature, and the bytes after it are exactly three chunks with type
    tags IHDR, IDAT, IEND in that order. -/
theorem png_signature_and_chunk_order (w h : Nat) (bs : List Nat)
    (hw : w < 4294967296) (hh : h < 4294967296)
    (hbs : create_minimal_png w h = Except.ok bs) :
    bs.take 8 = pngSignature ∧
    ∃ cs, readChunks bs.length (bs.drop 8) = some cs ∧
      cs.map PngChunk.ctype = [typeIHDR, typeIDAT, typeIEND] := by
  rw [create_minimal_png_eq w h hw hh] at hbs
  injection hbs with h'
  subst h'
  exact ⟨rfl, _, readChunks_pngBytes w h, rfl⟩

/-- Witness for C7 at width = height = 32. -/
theorem png_signature_and_chunk_order_witness :
    (32 : Nat) < 4294967296 ∧
    create_minimal_png 32 32 = Except.ok (pngBytes 32 32) ∧
    (pngBytes 32 32).take 8 = pngSignature ∧
    ∃ cs, readChunks (pngBytes 32 32).length ((pngBytes 32 32).drop 8) = some cs ∧
      cs.map PngChunk.ctype = [typeIHDR, typeIDAT, typeIEND] :=
  ⟨by decide, create_minimal_png_eq 32 32 (by decide) (by decide),
   png_signature_and_chunk_order 32 32 (pngBytes 32 32) (by decide) (by decide)
     (create_minimal_png_eq 32 32 (by decide) (by decide))⟩

/-- Claim C8. Both generators are deterministic: their embeddings are pure
    functions of their arguments (the source reads no clock, randomness or
    environment), so equal arguments give byte-identical results, and the
    argument-free ICO generator always produces the same result. -/
theorem generators_deterministic :
    (∀ w₁ h₁ w₂ h₂ : Nat, w₁ = w₂ → h₁ = h₂ →
      create_minimal_png w₁ h₁ = create_minimal_png w₂ h₂) ∧
    create_minimal_ico = create_minimal_ico :=
  ⟨fun _ _ _ _ hw hh => by rw [hw, hh], rfl⟩

/-- Witness for C8 at width = height = 32. -/
theorem generators_deterministic_witness :
    (32 : Nat) = 32 ∧ create_minimal_png 32 32 = create_minimal_png 32 32 :=
  ⟨rfl, generators_deterministic.1 32 32 32 32 rfl rfl⟩

/-- Claim C9. For every unsigned-32-bit width and height, the emitted byte
    sequence is exactly 70 bytes long: 8 signature bytes, a 25-byte IHDR
    chunk, a 25-byte IDAT chunk and a 12-byte IEND chunk. -/
theorem png_output_length_is_70 (w h : Nat) (bs : List Nat)
    (hw : w < 4294967296) (hh : h < 4294967296)
    (hbs : create_minimal_png w h = Except.ok bs) :
    bs.length = 70 := by
  rw [create_minimal_png_eq w h hw hh] at hbs
  injection hbs with h'
  subst h'
  rfl

/-- Witness for C9 at width = height = 32. -/
theorem png_output_length_is_70_witness :
    (32 : Nat) < 4294967296 ∧
    create_minimal_png 32 32 = Except.ok (pngBytes 32 32) ∧
    (pngBytes 32 32).length = 70 :=
  ⟨by decide, create_minimal_png_eq 32 32 (by decide) (by decide),
   png_output_length_is_70 32 32 (pngBytes 32 32) (by decide) (by decide)
     (create_minimal_png_eq 32 32 (by decide) (by decide))⟩

/-- Claim C10. The hardcoded IEND CRC constant 0xae426082 equals the
    standard CRC-32 of the type tag `IEND` with empty data, so the IEND
    chunk of every emitted file is a fully standard-valid PNG chunk. -/
theorem iend_chunk_is_standard_valid :
    crc32 (typeIEND ++ ([] : List Nat)) = iend_crc ∧
    (∀ w h bs, w < 4294967296 → h < 4294967296 →
      create_minimal_png w h = Except.ok bs →
      ∃ cs c, readChunks bs.length (bs.drop 8) = some cs ∧
        cs.getLast? = some c ∧ c.ctype = typeIEND ∧ c.cdata = [] ∧
        c.clen = 0 ∧ c.ccrc = crc32 (c.ctype ++ c.cdata)) := by
  refine ⟨by decide, ?_⟩
  intro w h bs hw hh hbs
  rw [create_minimal_png_eq w h hw hh] at hbs
  injection hbs with h'
  subst h'
  exact ⟨_, ⟨0, typeIEND, [], iend_crc⟩, readChunks_pngBytes w h, rfl, rfl, rfl, rfl, by decide⟩

/-- Witness for C10 at width = height = 32. -/
theorem iend_chunk_is_standard_valid_witness :
    (32 : Nat) < 4294967296 ∧
    create_minimal_png 32 32 = Except.ok (pngBytes 32 32) ∧
    ∃ cs c, readChunks (pngBytes 32 32).length ((pngBytes 32 32).drop 8) = some cs ∧
      cs.getLast? = some c ∧ c.ctype = typeIEND ∧ c.cdata = [] ∧
      c.clen = 0 ∧ c.ccrc = crc32 (c.ctype ++ c.cdata) :=
  ⟨by decide, create_minimal_png_eq 32 32 (by decide) (by decide),
   iend_chunk_is_standard_valid.2 32 32 (pngBytes 32 32) (by decide) (by decide)
     (create_minimal_png_eq 32 32 (by decide) (by decide))⟩
